import Mathlib

/-!
Verification development for the SafetyMV (Rule2Chant) repository: shallow
embeddings of the client-side pipeline logic (intake forms, lyric-selection
screen, result screen, agentic-flow debug console, production web client) and
of the orchestrator's bounded QA-retry policy, together with theorems settling
the behavioural claims about them.
-/

namespace SafetyMV

/-! ## String helpers

Kernel-evaluable equivalents (over the character list) of the string
operations the clients use: JavaScript `String.prototype.startsWith`,
`endsWith` and `trim`.
-/

/-- `s.startsWith(p)`. -/
def jsStartsWith (s p : String) : Bool := p.data.isPrefixOf s.data

/-- `s.endsWith(p)`. -/
def jsEndsWith (s p : String) : Bool := p.data.isSuffixOf s.data

/-- `s.trim()`: strip leading and trailing whitespace. -/
def jsTrim (s : String) : String :=
  ⟨((s.data.dropWhile Char.isWhitespace).reverse.dropWhile
      Char.isWhitespace).reverse⟩

/-! ## Primary intake form (`VideoGeneratorForm`)

The production client's intake form keeps a list `selectedStyles` of visual
vibes (ordered oldest-first) and an optional `selectedGenres` music genre.
-/

/-- The four visual-vibe ids of the primary intake form (`videoVibes`). -/
inductive VideoVibeId
  | minimal
  | corporate
  | modern
  | cute
deriving DecidableEq, Repr

/-- The eight music-genre ids of the primary intake form (`musicGenres`). -/
inductive MusicGenreId
  | hiphop
  | jazz
  | trot
  | rnb
  | ballad
  | rock
  | dance
  | kpop
deriving DecidableEq, Repr

/-- The id string of a visual vibe, as posted in `selectedStyles`. -/
def vibeIdString : VideoVibeId → String
  | .minimal => "minimal"
  | .corporate => "corporate"
  | .modern => "modern"
  | .cute => "cute"

/-- The vibe id strings of the primary intake form. -/
def primaryVibeIds : List String := ["minimal", "corporate", "modern", "cute"]

/-- `handleStyleToggle` of the primary intake form: toggling a selected vibe
removes it; adding a vibe while two are already selected drops the oldest
(`prev.slice(1)`) and appends the new one; otherwise the vibe is appended. -/
def handleStyleToggle (prev : List VideoVibeId) (styleId : VideoVibeId) :
    List VideoVibeId :=
  if styleId ∈ prev then prev.filter (fun id => id ≠ styleId)
  else if 2 ≤ prev.length then prev.drop 1 ++ [styleId]
  else prev ++ [styleId]

/-- `handleGenreSelect` of the primary intake form: selecting the currently
selected genre clears the selection, otherwise the clicked genre becomes the
selection. -/
def handleGenreSelect (prev : Option MusicGenreId) (genre : MusicGenreId) :
    Option MusicGenreId :=
  if prev = some genre then none else some genre

/-- `isFormValid` of the primary intake form: non-blank guidelines, at least
one selected style, and a selected genre. -/
def isFormValid (guidelines : String) (selectedStyles : List VideoVibeId)
    (selectedGenres : Option MusicGenreId) : Bool :=
  decide (0 < (jsTrim guidelines).length) &&
    decide (0 < selectedStyles.length) && selectedGenres.isSome

/-- The `disabled` condition of the form's Generate button:
`!isFormValid || isGenerating`. -/
def generateDisabled (guidelines : String) (selectedStyles : List VideoVibeId)
    (selectedGenres : Option MusicGenreId) (isGenerating : Bool) : Bool :=
  !(isFormValid guidelines selectedStyles selectedGenres) || isGenerating

/-! ## Agentic-flow debug console: vibe checkboxes

The debug console renders four `input[name='style']` checkboxes whose `value`
attributes are `minimal`, `corporated`, `modern`, `cute` (the second value is
spelled `corporated` in the console markup and in the repository's design
document). A change listener unchecks the input that was just checked whenever
more than two checkboxes would be selected.
-/

/-- The `value` attributes of the debug console's vibe checkboxes. -/
def debugConsoleStyleValues : List String :=
  ["minimal", "corporated", "modern", "cute"]

/-- One user click on the debug console's vibe checkbox with value `v`:
checking is undone by the change listener when it would make the selected
count exceed two. -/
def debugConsoleStyleToggle (checked : List String) (v : String) :
    List String :=
  if v ∈ checked then checked.filter (fun x => x ≠ v)
  else if 2 < checked.length + 1 then checked
  else checked ++ [v]

/-! ## Agentic-flow debug console: polling loop

`pollJob` fetches `GET {apiBase}/jobs/{id}/debug` every 2000 ms and clears the
interval when `isTerminal && !keepPollingForSuno`, where
`isTerminal = ["completed", "hitl_required", "failed"].includes(job.status)`
and `keepPollingForSuno = shouldContinueSunoPolling(job)`.
-/

/-- Base URL used by the debug console for all backend calls. -/
def apiBase : String := "http://localhost:8000"

/-- The music sub-job object of a debug poll response (`job.suno`); its
`status` field may be absent. -/
structure SunoInfo where
  status : Option String
deriving DecidableEq, Repr

/-- A poll response of the debug console (`GET /jobs/{id}/debug`), restricted
to the fields the stop decision reads. -/
structure PolledJob where
  status : String
  suno : Option SunoInfo
deriving DecidableEq, Repr

/-- The terminal storage statuses of the music sub-job. -/
def sunoTerminalStatuses : List String := ["stored", "store_failed", "error"]

/-- `shouldContinueSunoPolling` from the debug console's `suno.js`: false
without a job or with a falsy job status, false unless the job status starts
with `media`, then true until the music sub-job status is present, non-empty
and terminal. -/
def shouldContinueSunoPolling : Option PolledJob → Bool
  | none => false
  | some job =>
    if job.status = "" then false
    else if jsStartsWith job.status "media" then
      match job.suno.bind SunoInfo.status with
      | none => true
      | some s => if s = "" then true else !(decide (s ∈ sunoTerminalStatuses))
    else false

/-- The job statuses at which the debug console's `pollJob` clears its
polling interval. -/
def pollStopStatuses : List String := ["completed", "hitl_required", "failed"]

/-- The stop condition of the debug console's `pollJob`:
`isTerminal && !keepPollingForSuno`. -/
def pollJobStops (job : PolledJob) : Bool :=
  decide (job.status ∈ pollStopStatuses) && !(shouldContinueSunoPolling (some job))

/-- The terminal job statuses of the job-status transition rules document
(`queued`/`running` are live; `completed`/`failed`/`canceled` are terminal). -/
def terminalJobStatuses : List String := ["completed", "failed", "canceled"]

/-! ## Agentic-flow debug console: HITL submission -/

/-- The synchronous outcome of the debug console's `submitHitl`: either a
client-visible rejection message with no request sent, or a `POST` request to
the HITL endpoint. -/
inductive HitlSubmitOutcome
  | rejected (message : String)
  | submitted (url : String) (jobId : String) (selectedConceptId : String)
deriving DecidableEq, Repr

/-- `submitHitl` of the debug console: with no current job id it sets the
status text to `job_id 없음` and returns; with no checked concept radio it
sets `컨셉 선택 필요` and returns; otherwise it posts
`{job_id, selected_concept_id}` to `{apiBase}/jobs/{jobId}/hitl`. -/
def submitHitl (currentJobId : Option String)
    (selectedConceptId : Option String) : HitlSubmitOutcome :=
  match currentJobId with
  | none => .rejected "job_id 없음"
  | some jobId =>
    match selectedConceptId with
    | none => .rejected "컨셉 선택 필요"
    | some cid => .submitted (apiBase ++ "/jobs/" ++ jobId ++ "/hitl") jobId cid

/-! ## Primary client: lyric-selection screen (final variant)

The final variant of `lyricselection/page.tsx` keeps `MOCK_LYRICS = true`:
`fetchJobStatus` then returns a hardcoded `lyrics_done` payload without any
network request; with mock mode off it would fetch `/job_status/{jobId}`.
`handleComplete` posts `{job_id, version}` to `/post_version`. While
submitting, an overlay cycles five fixed progress messages every 7000 ms.
-/

/-- `MOCK_LYRICS` flag of the final lyric-selection variant. -/
def MOCK_LYRICS : Bool := true

/-- The `lyrics` payload of a `lyrics_done` job status. -/
structure LyricsPayload where
  v1 : String
  v2 : String
  log1 : Option String
  log2 : Option String
deriving DecidableEq, Repr

/-- The hardcoded mock response returned by `fetchJobStatus` when
`MOCK_LYRICS` is set. -/
def mockLyricsResponse : LyricsPayload :=
  { v1 := "These are the lyrics for version 1.\nLa la la...\n(🎵 mock)"
    v2 := "These are the lyrics for version 2.\nNa na na...\n(🎵 mock)"
    log1 := some "Mock log: generated v1 successfully"
    log2 := some "Mock log: generated v2 successfully" }

/-- Where `fetchJobStatus` gets its data: a mock payload produced locally, or
a network `GET` against the simulated job-status endpoint. -/
inductive LyricsFetchSource
  | mock (response : LyricsPayload)
  | network (url : String)
deriving DecidableEq, Repr

/-- `fetchJobStatus` of the final lyric-selection variant. -/
def fetchJobStatus (jobId : String) : LyricsFetchSource :=
  if MOCK_LYRICS then .mock mockLyricsResponse
  else .network ("/job_status/" ++ jobId)

/-- The `POST` request issued by `handleComplete`. -/
structure PostVersionRequest where
  url : String
  job_id : String
  version : Nat
deriving DecidableEq, Repr

/-- `handleComplete` of the lyric-selection screen posts the selected version
number to `/post_version`. -/
def handleCompleteRequest (jobId : String) (selected : Nat) :
    PostVersionRequest :=
  { url := "/post_version", job_id := jobId, version := selected }

/-- Polling interval of `startLyricsPolling` (milliseconds). -/
def lyricsPollIntervalMs : Nat := 1000

/-- Polling interval of `startVideoPolling` (milliseconds). -/
def videoPollIntervalMs : Nat := 1000

/-- Polling interval of the debug console's `startPolling` (milliseconds). -/
def debugConsolePollIntervalMs : Nat := 2000

/-- Polling interval of the production web client's `pollJob` (milliseconds). -/
def productionPollIntervalMs : Nat := 3000

/-- The five fixed progress messages of the submitting overlay (`steps`). -/
def lyricOverlaySteps : List String :=
  ["가사 선택을 반영하고 있어요",
   "장면을 구성하는 중…",
   "자막/타이밍을 맞추는 중…",
   "BGM 톤을 적용하는 중…",
   "최종 렌더링 거의 끝!"]

/-- The overlay's rotation period (milliseconds). -/
def STEP_ROTATION_MS : Nat := 7000

/-- One tick of the overlay's interval: `setStepIndex(p => (p + 1) % steps.length)`.
It reads no job or backend state. -/
def nextStepIndex (p : Nat) : Nat := (p + 1) % lyricOverlaySteps.length

/-! ## Primary client: result screen

The result screen reads `sessionStorage.getItem("video_url") ||
sessionStorage.getItem("preview_url")`; JavaScript `||` skips a value that is
`null` or the empty string. The empty "no preview URL" state renders exactly
when the resulting `url` is falsy.
-/

/-- JavaScript truthiness of an optional session-storage string: present and
non-empty. -/
def hasValue : Option String → Bool
  | none => false
  | some v => decide (v ≠ "")

/-- JavaScript `a || b` on the two optional session-storage strings. -/
def firstTruthy (a b : Option String) : Option String :=
  match a with
  | some v => if v = "" then b else some v
  | none => b

/-- The `url` state of the result screen after the mount effect. -/
def resultUrlState (videoUrl previewUrl : Option String) : Option String :=
  firstTruthy videoUrl previewUrl

/-- Whether the result screen renders the empty "no preview URL" state
(`!url`). -/
def showEmptyState (videoUrl previewUrl : Option String) : Bool :=
  match resultUrlState videoUrl previewUrl with
  | none => true
  | some v => decide (v = "")

/-! ## Strategy catalogue listing

The backend strategy loader itself is not shipped under `src/`; the
repository's agent guide declares the rule it implements.
-/

/-- Modelled from the spec: the backend strategy loader
(`backend/app/core/strategy_loader.py`, not included in the repository
snapshot) builds the strategy catalogue from the `.md` file names under the
strategy directory, with `strategy_id` equal to the file name without its
extension, and the catalogue's own `README.md` excluded from the API list. -/
def listStrategies (files : List String) : List String :=
  (files.filter (fun f => jsEndsWith f ".md" && f ≠ "README.md")).map
    (fun f => f.dropRight 3)

/-- The strategy listing as the spec sentence states it: additionally
excluding the non-executable `origin` strategy. -/
def listStrategiesClaimed (files : List String) : List String :=
  (files.filter
      (fun f => jsEndsWith f ".md" && f ≠ "README.md" && f ≠ "origin.md")).map
    (fun f => f.dropRight 3)

/-- The `.md` files of the repository's strategy directory: the seven
strategies named in the catalogue guide plus the catalogue's README. -/
def strategyCatalogueFiles : List String :=
  ["README.md", "origin.md", "parallel_stylelock.md", "sequential_anchor.md",
   "hybrid_overlap.md", "storyboard_keyframes.md", "mix_audio_anchor.md",
   "video_chain.md"]

/-! ## Orchestrator: bounded QA-retry loop

The orchestrator is documented (state-machine and retry-policy documents) but
not implemented under `src/`; the concept-generation phase is modelled from
those documents.
-/

/-- The pipeline states of the state-machine document. -/
inductive OState
  | INIT
  | CONCEPT_GEN
  | QA
  | HITL
  | LOCK_BLUEPRINT_CORE
  | STYLE_BIND
  | PARALLEL_MEDIA_GEN
  | RENDER
  | DONE
deriving DecidableEq, Repr

/-- One concept candidate: identifier and lyrics (the MV script is irrelevant
to the retry decision and omitted). -/
structure Concept where
  concept_id : String
  lyrics : String
deriving DecidableEq, Repr

/-- The pair of concept candidates produced by one ConceptGen round. -/
structure ConceptPair where
  c1 : Concept
  c2 : Concept
deriving DecidableEq, Repr

/-- A QA result for one concept: pass/fail verdict, score in [0,1], missing
required keywords, structural issues. -/
structure QAResult where
  pass : Bool
  score : ℚ
  missing_keywords : List String
  structural_issues : List String
deriving DecidableEq, Repr

/-- The corrective input handed back to a ConceptGen retry: the missing
keywords and structural issues reported by QA. -/
structure Corrective where
  missing_keywords : List String
  structural_issues : List String
deriving DecidableEq, Repr

/-- Both concepts of a round pass QA. -/
def pairPass (q : QAResult × QAResult) : Bool := q.1.pass && q.2.pass

/-- The score of a candidate pair: the score of its higher-scoring concept. -/
def pairScore (q : QAResult × QAResult) : ℚ := max q.1.score q.2.score

/-- The corrective input derived from a failed QA round: the missing keywords
and structural issues of both concepts. -/
def correctiveOf (q : QAResult × QAResult) : Corrective :=
  { missing_keywords := q.1.missing_keywords ++ q.2.missing_keywords
    structural_issues := q.1.structural_issues ++ q.2.structural_issues }

/-- The environment the orchestrator's concept phase runs against: a
ConceptGen call (optionally given corrective input) and a QA scoring of a
pair. -/
structure ConceptEnv where
  gen : Option Corrective → ConceptPair
  qa : ConceptPair → QAResult × QAResult

/-- Maximum number of ConceptGen retries (retry-policy document). -/
def MAX_CONCEPT_RETRIES : Nat := 1

/-- What the concept phase records: the visited states, the corrective input
of each ConceptGen call, the attempted pairs with their QA results, the pair
carried to HITL, and the externally visible job status at the gate. -/
structure ConceptPhaseTrace where
  history : List OState
  genCalls : List (Option Corrective)
  attempts : List (ConceptPair × (QAResult × QAResult))
  chosen : ConceptPair × (QAResult × QAResult)
  jobStatus : String
deriving Repr

/-- Modelled from the spec: the orchestrator's propose-evaluate-verify loop
(the orchestrator implementation is not in the repository snapshot; this
follows the retry-policy and state-machine documents). Both concepts go to
QA; on failure the orchestrator retries ConceptGen exactly once, passing the
missing keywords and structural issues back as corrective input; if the
retried pair still fails, the highest-scoring attempted pair is carried as
fallback (ties preferring the retry) and the pipeline advances to the HITL
gate, never failing the job for a QA failure. -/
def conceptPhase (env : ConceptEnv) : ConceptPhaseTrace :=
  let p0 := env.gen none
  let q0 := env.qa p0
  if pairPass q0 then
    { history := [.INIT, .CONCEPT_GEN, .QA, .HITL]
      genCalls := [none]
      attempts := [(p0, q0)]
      chosen := (p0, q0)
      jobStatus := "hitl_required" }
  else
    let corr := correctiveOf q0
    let p1 := env.gen (some corr)
    let q1 := env.qa p1
    { history := [.INIT, .CONCEPT_GEN, .QA, .CONCEPT_GEN, .QA, .HITL]
      genCalls := [none, some corr]
      attempts := [(p0, q0), (p1, q1)]
      chosen :=
        if pairPass q1 then (p1, q1)
        else if pairScore q0 ≤ pairScore q1 then (p1, q1) else (p0, q0)
      jobStatus := "hitl_required" }

/-- The first ConceptGen round together with its QA results. -/
def round0 (env : ConceptEnv) : ConceptPair × (QAResult × QAResult) :=
  (env.gen none, env.qa (env.gen none))

/-- The corrective input the orchestrator passes to the retry. -/
def retryCorrective (env : ConceptEnv) : Corrective :=
  correctiveOf (round0 env).2

/-- The retried ConceptGen round together with its QA results. -/
def round1 (env : ConceptEnv) : ConceptPair × (QAResult × QAResult) :=
  (env.gen (some (retryCorrective env)),
   env.qa (env.gen (some (retryCorrective env))))

/-- Fixture concept pair for the retry-policy fixture run. -/
def fixtureConceptPair : ConceptPair :=
  { c1 := { concept_id := "c1", lyrics := "lyrics A" }
    c2 := { concept_id := "c2", lyrics := "lyrics B" } }

/-- Fixture QA result: fail with score 0.4. -/
def qaFailLow : QAResult :=
  { pass := false, score := 0.4, missing_keywords := ["보호구"],
    structural_issues := [] }

/-- Fixture QA result: fail with score 0.6. -/
def qaFailHigh : QAResult :=
  { pass := false, score := 0.6, missing_keywords := []
    structural_issues := ["insufficient scene count"] }

/-- Fixture environment in which every generated pair fails QA. -/
def envAlwaysFail : ConceptEnv :=
  { gen := fun _ => fixtureConceptPair
    qa := fun _ => (qaFailLow, qaFailHigh) }

/-! ## Theorems -/

theorem handleStyleToggle_length_le (prev : List VideoVibeId)
    (s : VideoVibeId) (h : prev.length ≤ 2) :
    (handleStyleToggle prev s).length ≤ 2 := by
  by_cases hmem : s ∈ prev
  · rw [handleStyleToggle, if_pos hmem]
    exact le_trans (List.length_filter_le _ _) h
  · rw [handleStyleToggle, if_neg hmem]
    by_cases hlen : 2 ≤ prev.length
    · rw [if_pos hlen]
      simp only [List.length_append, List.length_drop, List.length_cons,
        List.length_nil]
      omega
    · rw [if_neg hlen]
      simp only [List.length_append, List.length_cons, List.length_nil]
      omega

theorem handleStyleToggle_foldl_length (ops : List VideoVibeId)
    (init : List VideoVibeId) (h : init.length ≤ 2) :
    (ops.foldl handleStyleToggle init).length ≤ 2 := by
  induction ops generalizing init with
  | nil => simpa using h
  | cons a as ih => exact ih _ (handleStyleToggle_length_le _ _ h)

theorem debugConsoleStyleToggle_step (checked : List String) (v : String)
    (h : checked.length ≤ 2)
    (hsub : ∀ x ∈ checked, x ∈ debugConsoleStyleValues)
    (hv : v ∈ debugConsoleStyleValues) :
    (debugConsoleStyleToggle checked v).length ≤ 2 ∧
      ∀ x ∈ debugConsoleStyleToggle checked v, x ∈ debugConsoleStyleValues := by
  by_cases hmem : v ∈ checked
  · rw [debugConsoleStyleToggle, if_pos hmem]
    exact ⟨le_trans (List.length_filter_le _ _) h,
      fun x hx => hsub x (List.mem_of_mem_filter hx)⟩
  · rw [debugConsoleStyleToggle, if_neg hmem]
    by_cases hlen : 2 < checked.length + 1
    · rw [if_pos hlen]
      exact ⟨h, hsub⟩
    · rw [if_neg hlen]
      refine ⟨?_, ?_⟩
      · simp only [List.length_append, List.length_cons, List.length_nil]
        omega
      · intro x hx
        rcases List.mem_append.mp hx with hx | hx
        · exact hsub x hx
        · rcases List.mem_singleton.mp hx with rfl
          exact hv

theorem debugConsoleStyleToggle_foldl (dops : List String)
    (init : List String) (h : init.length ≤ 2)
    (hsub : ∀ x ∈ init, x ∈ debugConsoleStyleValues)
    (hd : ∀ v ∈ dops, v ∈ debugConsoleStyleValues) :
    (dops.foldl debugConsoleStyleToggle init).length ≤ 2 ∧
      ∀ x ∈ dops.foldl debugConsoleStyleToggle init,
        x ∈ debugConsoleStyleValues := by
  induction dops generalizing init with
  | nil => exact ⟨by simpa using h, by simpa using hsub⟩
  | cons a as ih =>
    have step := debugConsoleStyleToggle_step init a h hsub
      (hd a (List.mem_cons_self a as))
    exact ih _ step.1 step.2 (fun v hv => hd v (List.mem_cons_of_mem a hv))

theorem vibeIdString_mem (s : VideoVibeId) : vibeIdString s ∈ primaryVibeIds := by
  cases s <;> simp [vibeIdString, primaryVibeIds]

/-- C3 counterexample: on the repository's strategy directory, the listing
derived from the declared loading rule contains `origin`, while the claim's
listing (which additionally filters `origin`) does not. -/
theorem strategy_listing_contains_origin :
    "origin" ∈ listStrategies strategyCatalogueFiles ∧
      "origin" ∉ listStrategiesClaimed strategyCatalogueFiles := by decide

/-- C3 (amended): `GET /strategies` returns exactly the ids derived from the
`.md` file names of the strategy directory, excluding only the catalogue's
own README; the non-executable `origin` strategy is included. -/
theorem strategy_listing_excludes_only_readme :
    listStrategies strategyCatalogueFiles =
      ["origin", "parallel_stylelock", "sequential_anchor", "hybrid_overlap",
       "storyboard_keyframes", "mix_audio_anchor", "video_chain"] ∧
    "README" ∉ listStrategies strategyCatalogueFiles ∧
    "README.md" ∈ strategyCatalogueFiles := by decide

/-- C5: a HITL submission with no job id or no selected concept is rejected
synchronously with a descriptive (non-empty, case-specific) client-visible
message, and no HITL request is sent — hence no job state can be mutated on
that path. -/
theorem submitHitl_rejects_incomplete (jobId sel : Option String)
    (h : jobId = none ∨ sel = none) :
    submitHitl jobId sel =
      .rejected (if jobId = none then "job_id 없음" else "컨셉 선택 필요") ∧
    ∀ u j c, submitHitl jobId sel ≠ .submitted u j c := by
  rcases h with h | h
  · subst h
    exact ⟨rfl, fun u j c => by simp [submitHitl]⟩
  · subst h
    cases jobId with
    | none => exact ⟨rfl, fun u j c => by simp [submitHitl]⟩
    | some j0 =>
      refine ⟨?_, fun u j c => by simp [submitHitl]⟩
      rw [if_neg (by simp)]
      rfl

theorem submitHitl_rejects_incomplete_witness :
    submitHitl none (some "c1") =
      .rejected
        (if (none : Option String) = none then "job_id 없음"
         else "컨셉 선택 필요") ∧
    ∀ u j c, submitHitl none (some "c1") ≠ .submitted u j c :=
  submitHitl_rejects_incomplete none (some "c1") (Or.inl rfl)

theorem nextStepIndex_iterate (k p : Nat) (hp : p < 5) :
    Nat.iterate nextStepIndex k p = (p + k) % 5 := by
  induction k generalizing p with
  | zero => simpa using (Nat.mod_eq_of_lt hp).symm
  | succ n ih =>
    rw [Function.iterate_succ_apply]
    have h1 : nextStepIndex p = (p + 1) % 5 := rfl
    rw [h1, ih ((p + 1) % 5) (Nat.mod_lt _ (by norm_num))]
    omega

/-- C7: while submitting, the lyric-selection overlay cycles exactly a fixed
five-message narrative, advancing one message per 7000 ms tick and wrapping
modulo 5; the tick reads no backend state. -/
theorem lyric_overlay_five_message_rotation :
    lyricOverlaySteps.length = 5 ∧ STEP_ROTATION_MS = 7000 ∧
    (∀ p, nextStepIndex p = (p + 1) % 5) ∧
    (∀ k, Nat.iterate nextStepIndex k 0 = k % 5) := by
  refine ⟨rfl, rfl, fun p => rfl, fun k => ?_⟩
  simpa using nextStepIndex_iterate k 0 (by norm_num)

/-- C8: every client polling loop over the job-status endpoint uses a fixed
interval between 1 and 3 seconds: 1000 ms in the primary client's
lyric-selection screen (both its lyrics and video loops), 2000 ms in the
debug console, 3000 ms in the production web client. -/
theorem client_poll_intervals :
    lyricsPollIntervalMs = 1000 ∧ videoPollIntervalMs = 1000 ∧
    debugConsolePollIntervalMs = 2000 ∧ productionPollIntervalMs = 3000 ∧
    ∀ i ∈ [lyricsPollIntervalMs, videoPollIntervalMs,
           debugConsolePollIntervalMs, productionPollIntervalMs],
      1000 ≤ i ∧ i ≤ 3000 := by decide

/-- C10: selecting the selected genre again clears the genre selection, and
whenever no genre is selected, the trimmed guidelines are empty, or no
visual style is selected, the form is invalid and Generate is disabled. -/
theorem intake_form_genre_toggle_and_validity :
    (∀ g : MusicGenreId, handleGenreSelect (some g) g = none) ∧
    ∀ gl styles genres gen,
      genres = none ∨ jsTrim gl = "" ∨ styles = [] →
        isFormValid gl styles genres = false ∧
          generateDisabled gl styles genres gen = true := by
  constructor
  · intro g
    simp [handleGenreSelect]
  · intro gl styles genres gen h
    have hvalid : isFormValid gl styles genres = false := by
      rcases h with h | h | h
      · subst h
        simp [isFormValid]
      · rw [isFormValid, h]
        simp
      · subst h
        simp [isFormValid]
    refine ⟨hvalid, ?_⟩
    rw [generateDisabled, hvalid]
    simp

theorem intake_form_genre_toggle_and_validity_witness :
    handleGenreSelect (some MusicGenreId.hiphop) MusicGenreId.hiphop = none ∧
    (isFormValid "안전 수칙" [VideoVibeId.minimal] none = false ∧
      generateDisabled "안전 수칙" [VideoVibeId.minimal] none false = true) :=
  ⟨intake_form_genre_toggle_and_validity.1 MusicGenreId.hiphop,
   intake_form_genre_toggle_and_validity.2 "안전 수칙" [VideoVibeId.minimal]
     none false (Or.inl rfl)⟩

/-- C4 counterexample: in the debug console, toggling the second vibe
checkbox selects the value `corporated`, which is outside the claimed vibe
set `{minimal, corporate, modern, cute}`. -/
theorem debug_console_vibe_value_counterexample :
    "corporated" ∈ debugConsoleStyleValues ∧
    debugConsoleStyleToggle [] "corporated" = ["corporated"] ∧
    "corporated" ∉ primaryVibeIds := by decide

/-- C4 (amended): any sequence of vibe toggles yields at most two selected
vibes in both intake forms; the primary form's selections stay within its
vibe enum `{minimal, corporate, modern, cute}` while the debug console's
stay within its checkbox values `{minimal, corporated, modern, cute}`; with
two vibes selected, the primary form replaces the oldest selection and the
debug console rejects the third checkbox. -/
theorem client_vibe_selection_invariant (ops : List VideoVibeId)
    (dops : List String) (hd : ∀ v ∈ dops, v ∈ debugConsoleStyleValues) :
    (ops.foldl handleStyleToggle []).length ≤ 2 ∧
    (∀ s ∈ ops.foldl handleStyleToggle [], vibeIdString s ∈ primaryVibeIds) ∧
    (dops.foldl debugConsoleStyleToggle []).length ≤ 2 ∧
    (∀ v ∈ dops.foldl debugConsoleStyleToggle [],
       v ∈ debugConsoleStyleValues) ∧
    (∀ prev s, s ∉ prev → prev.length = 2 →
       handleStyleToggle prev s = prev.drop 1 ++ [s]) ∧
    (∀ checked v, v ∉ checked → 2 ≤ checked.length →
       debugConsoleStyleToggle checked v = checked) := by
  have hdbg := debugConsoleStyleToggle_foldl dops [] (by simp) (by simp) hd
  refine ⟨handleStyleToggle_foldl_length ops [] (by simp),
    fun s _ => vibeIdString_mem s, hdbg.1, hdbg.2, ?_, ?_⟩
  · intro prev s hmem hlen
    rw [handleStyleToggle, if_neg hmem, if_pos (by omega)]
  · intro checked v hmem hlen
    rw [debugConsoleStyleToggle, if_neg hmem, if_pos (by omega)]

theorem client_vibe_selection_invariant_witness :
    (([VideoVibeId.minimal, .corporate, .cute].foldl handleStyleToggle
        []).length ≤ 2) ∧
    ((["minimal", "corporated", "modern"].foldl debugConsoleStyleToggle
        []).length ≤ 2) :=
  ⟨(client_vibe_selection_invariant [VideoVibeId.minimal, .corporate, .cute]
      ["minimal", "corporated", "modern"] (by decide)).1,
   (client_vibe_selection_invariant [VideoVibeId.minimal, .corporate, .cute]
      ["minimal", "corporated", "modern"] (by decide)).2.2.1⟩

/-- C9 counterexample: with both session-storage keys present but holding the
empty string, the result screen shows the empty "no preview URL" state even
though neither key is absent. -/
theorem result_screen_empty_state_counterexample :
    showEmptyState (some "") (some "") = true ∧
    (some "" : Option String) ≠ none := by decide

/-- C9 (amended): the result screen shows the video URL from `video_url`,
falling back to `preview_url` whenever `video_url` is absent or empty
(JavaScript `||` treats the empty string like an absent key), and shows the
empty "no preview URL" state exactly when neither key holds a non-empty
value. -/
theorem result_screen_url_resolution (v p : Option String) :
    showEmptyState v p = (!(hasValue v) && !(hasValue p)) ∧
    (hasValue v = true → resultUrlState v p = v) ∧
    (hasValue v = false → hasValue p = true → resultUrlState v p = p) := by
  cases v with
  | none =>
    cases p with
    | none => exact ⟨rfl, by simp [hasValue], by simp [resultUrlState, firstTruthy]⟩
    | some q =>
      by_cases hq : q = "" <;>
        simp [showEmptyState, resultUrlState, firstTruthy, hasValue, hq]
  | some s =>
    by_cases hs : s = ""
    · subst hs
      cases p with
      | none => exact ⟨rfl, by simp [hasValue], by simp [hasValue]⟩
      | some q =>
        by_cases hq : q = "" <;>
          simp [showEmptyState, resultUrlState, firstTruthy, hasValue, hq]
    · cases p with
      | none =>
        simp [showEmptyState, resultUrlState, firstTruthy, hasValue, hs]
      | some q =>
        by_cases hq : q = "" <;>
          simp [showEmptyState, resultUrlState, firstTruthy, hasValue, hs, hq]

theorem result_screen_url_resolution_witness :
    resultUrlState (some "http://x/final.mp4") none =
      some "http://x/final.mp4" ∧
    resultUrlState none (some "http://y/final.mp4") =
      some "http://y/final.mp4" :=
  ⟨(result_screen_url_resolution (some "http://x/final.mp4") none).2.1
      (by decide),
   (result_screen_url_resolution none (some "http://y/final.mp4")).2.2
      (by decide) (by decide)⟩

/-- C2 counterexample: a poll response whose job status is terminal
(`completed`) while the music sub-job is still in flight (`submitted`) makes
the debug console stop polling, contradicting the claim that it keeps
polling in that situation. -/
theorem debug_console_poll_stop_counterexample :
    pollJobStops
        { status := "completed", suno := some { status := some "submitted" } }
      = true ∧
    "completed" ∈ terminalJobStatuses ∧
    "submitted" ∉ sunoTerminalStatuses := by decide

/-- C2 (amended): the debug console stops polling exactly when the job
status is one of `completed`, `hitl_required`, `failed`, independently of
the music sub-job: `shouldContinueSunoPolling` returns true only for
statuses starting with `media`, so it never blocks stopping (and `canceled`,
though terminal, never stops the loop). -/
theorem debug_console_poll_stop_condition (j : PolledJob) :
    pollJobStops j = decide (j.status ∈ pollStopStatuses) := by
  by_cases h : j.status ∈ pollStopStatuses
  · have hst : j.status = "completed" ∨ j.status = "hitl_required" ∨
        j.status = "failed" := by
      simpa [pollStopStatuses] using h
    have hkeep : shouldContinueSunoPolling (some j) = false := by
      rcases hst with h1 | h1 | h1 <;>
        · rw [shouldContinueSunoPolling, h1, if_neg (by decide),
            if_neg (by decide)]
    rw [pollJobStops, hkeep]
    simp [h]
  · rw [pollJobStops]
    simp [h]

/-- C6 counterexample: the final lyric-selection variant of the primary
client has `MOCK_LYRICS` enabled (so it serves hardcoded mock lyrics instead
of polling a real endpoint) and submits the selection to `/post_version`,
not to the HITL endpoint. -/
theorem lyricselection_mock_contract_counterexample :
    MOCK_LYRICS = true ∧
    fetchJobStatus "job1" = .mock mockLyricsResponse ∧
    (handleCompleteRequest "job1" 1).url = "/post_version" ∧
    (handleCompleteRequest "job1" 1).url ≠ "/jobs/job1/hitl" := by
  refine ⟨rfl, rfl, rfl, by decide⟩

/-- C6 (amended): every lyric-selection variant of the primary client uses
the mock/simulated contract — the final variant returns the hardcoded mock
lyrics without a network call and posts the selected version number to
`/post_version` — while the real `POST /jobs/{id}/hitl` submission in the
repository lives in the agentic-flow debug console. -/
theorem lyricselection_mock_vs_debug_console_hitl (jobId cid : String)
    (v : Nat) :
    fetchJobStatus jobId = .mock mockLyricsResponse ∧
    (handleCompleteRequest jobId v).url = "/post_version" ∧
    submitHitl (some jobId) (some cid) =
      .submitted (apiBase ++ "/jobs/" ++ jobId ++ "/hitl") jobId cid :=
  ⟨rfl, rfl, rfl⟩

theorem conceptPhase_of_fail (env : ConceptEnv)
    (hfail : pairPass (round0 env).2 = false) :
    conceptPhase env =
      { history := [.INIT, .CONCEPT_GEN, .QA, .CONCEPT_GEN, .QA, .HITL]
        genCalls := [none, some (retryCorrective env)]
        attempts := [round0 env, round1 env]
        chosen :=
          if pairPass (round1 env).2 then round1 env
          else if pairScore (round0 env).2 ≤ pairScore (round1 env).2 then
            round1 env
          else round0 env
        jobStatus := "hitl_required" } := by
  have h' : ¬(pairPass (env.qa (env.gen none)) = true) := by
    simp [round0] at hfail
    simp [hfail]
  rw [conceptPhase, if_neg h']
  rfl

theorem conceptPhase_fail_fields (env : ConceptEnv)
    (hfail : pairPass (round0 env).2 = false) :
    (conceptPhase env).history =
      [.INIT, .CONCEPT_GEN, .QA, .CONCEPT_GEN, .QA, .HITL] ∧
    (conceptPhase env).genCalls = [none, some (retryCorrective env)] ∧
    (conceptPhase env).attempts = [round0 env, round1 env] ∧
    (conceptPhase env).chosen =
      (if pairPass (round1 env).2 then round1 env
       else if pairScore (round0 env).2 ≤ pairScore (round1 env).2 then
         round1 env
       else round0 env) ∧
    (conceptPhase env).jobStatus = "hitl_required" := by
  rw [conceptPhase_of_fail env hfail]
  exact ⟨rfl, rfl, rfl, rfl, rfl⟩

/-- C1: whenever the first concept pair fails QA, the orchestrator retries
ConceptGen exactly once (so `CONCEPT_GEN` occurs exactly twice in the state
history), passing the missing keywords and structural issues of the failed
round back as corrective input; the phase always ends at the HITL gate with
a non-failed job status, carrying a pair that was attempted and — when every
attempt failed QA — scores at least as high as every attempted pair. -/
theorem concept_gen_bounded_retry (env : ConceptEnv)
    (hfail : pairPass (round0 env).2 = false) :
    (conceptPhase env).history.count OState.CONCEPT_GEN = 2 ∧
    (conceptPhase env).genCalls = [none, some (retryCorrective env)] ∧
    (conceptPhase env).history.getLast? = some OState.HITL ∧
    (conceptPhase env).jobStatus ≠ "failed" ∧
    (conceptPhase env).chosen ∈ (conceptPhase env).attempts ∧
    ((∀ a ∈ (conceptPhase env).attempts, pairPass a.2 = false) →
      ∀ a ∈ (conceptPhase env).attempts,
        pairScore a.2 ≤ pairScore (conceptPhase env).chosen.2) := by
  obtain ⟨hh, hg, hat, hch, hjs⟩ := conceptPhase_fail_fields env hfail
  rw [hh, hg, hat, hch, hjs]
  refine ⟨by decide, rfl, by decide, by decide, ?_, ?_⟩
  · by_cases h1 : pairPass (round1 env).2 = true
    · simp [h1]
    · by_cases h2 : pairScore (round0 env).2 ≤ pairScore (round1 env).2 <;>
        simp [h1, h2]
  · intro hall a ha
    have h1 : pairPass (round1 env).2 = false :=
      hall (round1 env) (by simp)
    have h1' : ¬(pairPass (round1 env).2 = true) := by simp [h1]
    rcases List.mem_cons.mp ha with rfl | ha
    · rw [if_neg h1']
      by_cases h2 : pairScore (round0 env).2 ≤ pairScore (round1 env).2
      · rw [if_pos h2]
        exact h2
      · rw [if_neg h2]
    · rcases List.mem_singleton.mp ha with rfl
      rw [if_neg h1']
      by_cases h2 : pairScore (round0 env).2 ≤ pairScore (round1 env).2
      · rw [if_pos h2]
      · rw [if_neg h2]
        exact le_of_not_le h2

theorem concept_gen_bounded_retry_witness :
    pairPass (round0 envAlwaysFail).2 = false ∧
    ((conceptPhase envAlwaysFail).history.count OState.CONCEPT_GEN = 2 ∧
     (conceptPhase envAlwaysFail).genCalls =
       [none, some (retryCorrective envAlwaysFail)] ∧
     (conceptPhase envAlwaysFail).history.getLast? = some OState.HITL ∧
     (conceptPhase envAlwaysFail).jobStatus ≠ "failed" ∧
     (conceptPhase envAlwaysFail).chosen ∈ (conceptPhase envAlwaysFail).attempts ∧
     ((∀ a ∈ (conceptPhase envAlwaysFail).attempts, pairPass a.2 = false) →
       ∀ a ∈ (conceptPhase envAlwaysFail).attempts,
         pairScore a.2 ≤ pairScore (conceptPhase envAlwaysFail).chosen.2)) :=
  ⟨rfl, concept_gen_bounded_retry envAlwaysFail rfl⟩

end SafetyMV
